import Mathlib

/-!
Verification of the GUVI Link Hub client controller (src/static/script.js)
and, where the server core is absent from the sources, of a model of the
Link Store and Search/Match Engine taken from the design document.

The client controller is embedded shallowly: each handler is a pure
function from its inputs (raw field values, fetch outcomes) to the ordered
list of observable UI effects it performs.  DOM writes, notifications,
console logging, page reloads and outgoing HTTP requests are all effects.
-/

/-- A stored bookmark record, shaped like the Link JSON the endpoints
return: id, title, url, description, category, added_by, clicks,
created_at. -/
structure Link where
  id : Int
  title : String
  url : String
  description : String
  category : String
  added_by : String
  clicks : Nat
  created_at : Int
deriving DecidableEq, Repr

/-- Kind of a transient notification shown by showNotification. -/
inductive NotifKind where
  | success
  | error
  | info
deriving DecidableEq, Repr

/-- Sender tag of a chat bubble appended by addChatMessage. -/
inductive Sender where
  | user
  | ai
deriving DecidableEq, Repr

/-- What the search-results / command-palette pane holds after a render:
either the "No links found" placeholder or a list of link entries in
order. -/
inductive Rendered where
  | noLinksFound
  | entries (links : List Link)
deriving DecidableEq, Repr

/-- A JavaScript value in the positions where script.js tests truthiness
of a link id (openLink's `if (linkId)`). -/
inductive JSVal where
  | num (n : Int)
  | str (s : String)
  | nullVal
  | undefinedVal
deriving DecidableEq, Repr

/-- JavaScript truthiness for the modelled values: 0, the empty string,
null and undefined are falsy. -/
def JSVal.truthy : JSVal → Bool
  | .num n => n ≠ 0
  | .str s => s ≠ ""
  | .nullVal => false
  | .undefinedVal => false

/-- Observable effects the controller can perform, in program order. -/
inductive Effect where
  | hideSearchResults
  | showSearchResults (r : Rendered)
  | searchRequest (q : String)
  | importRequest (content category addedBy : String)
  | chatRequest (message : String)
  | clickRequest (id : JSVal)
  | openTab (url : String)
  | notification (message : String) (kind : NotifKind)
  | consoleError (tag : String)
  | closeAddLinkModal
  | closeImportModal
  | reload
  | appendChatMessage (message : String) (sender : Sender)
deriving DecidableEq, Repr

/-- True for the user-visible transient notifications (showNotification);
console logging is not user-visible. -/
def Effect.isUserNotification : Effect → Bool
  | .notification _ _ => true
  | _ => false

/-- True for effects that mutate application state beyond a transient
notification: closing a modal or reloading the page. -/
def Effect.isStateMutation : Effect → Bool
  | .closeAddLinkModal => true
  | .closeImportModal => true
  | .reload => true
  | _ => false

/-- True for the outgoing search request effect. -/
def Effect.isSearchRequest : Effect → Bool
  | .searchRequest _ => true
  | _ => false

/-- True for the outgoing bulk-import request effect. -/
def Effect.isImportRequest : Effect → Bool
  | .importRequest _ _ _ => true
  | _ => false

/-- Whether a list of effects contains a user-visible notification. -/
def notifiesUser (effs : List Effect) : Bool :=
  effs.any Effect.isUserNotification

/-- Outcome of a `fetch` as the handlers observe it: a resolved response
carrying a decoded value, or a rejection (network error) that lands in
the catch block. -/
inductive FetchOutcome (α : Type) where
  | ok (value : α)
  | networkError
deriving DecidableEq, Repr

/-- Decoded JSON body of POST /add_link: `{success, error?}`. -/
structure AddLinkResult where
  success : Bool
  error : Option String
deriving DecidableEq, Repr

/-- Decoded JSON body of POST /import_from_text:
`{success, imported_count, error?}`. -/
structure ImportResult where
  success : Bool
  importedCount : Nat
  error : Option String
deriving DecidableEq, Repr

/-- JavaScript String.prototype.trim as the handlers use it: strip
leading and trailing whitespace characters. -/
def jsTrim (s : String) : String :=
  String.mk
    (((s.toList.dropWhile Char.isWhitespace).reverse.dropWhile
        Char.isWhitespace).reverse)

/-- handleSearch (script.js): trims the input; a blank query hides the
results pane and issues nothing; otherwise, after the debounce, a search
request is issued when the controller is in search mode. -/
def handleSearch (isSearchMode : Bool) (raw : String) : List Effect :=
  let query := jsTrim raw
  if query = "" then [.hideSearchResults]
  else if isSearchMode then [.searchRequest query]
  else []

/-- displaySearchResults (script.js): an empty result list renders the
"No links found" placeholder, otherwise the links in the given order;
the pane is then unhidden. -/
def displaySearchResults (links : List Link) : List Effect :=
  if links.isEmpty then [.showSearchResults .noLinksFound]
  else [.showSearchResults (.entries links)]

/-- sendChatMessage (script.js): trims the chat input; a blank message
returns immediately with no effect; otherwise the user bubble and the
thinking indicator are appended and the chat request is issued. -/
def sendChatMessage (inputVal : String) : List Effect :=
  let message := jsTrim inputVal
  if message = "" then []
  else [.appendChatMessage message .user,
        .appendChatMessage "🤔 Thinking..." .ai,
        .chatRequest message]

/-- handleAddLink (script.js), response stage: on `{success: true}` a
success notification, modal close and reload; on `{success: false}` only
an error notification (the server error text, or a fallback); on a
network error a console log and an error notification. -/
def handleAddLinkResp : FetchOutcome AddLinkResult → List Effect
  | .ok r =>
      if r.success then
        [.notification "Link added successfully!" .success,
         .closeAddLinkModal, .reload]
      else
        [.notification (r.error.getD "Failed to add link") .error]
  | .networkError =>
      [.consoleError "Add link error:",
       .notification "Failed to add link. Please try again." .error]

/-- handleImport (script.js), submission stage: trims the pasted content;
blank content produces only an error notification and no request;
otherwise one import request is sent, with added_by defaulted to
"Anonymous" when the name field is the empty string (`value || ...`). -/
def handleImportSubmit (contentRaw category addedByField : String) :
    List Effect :=
  let content := jsTrim contentRaw
  let addedBy := if addedByField = "" then "Anonymous" else addedByField
  if content = "" then
    [.notification "Please paste some content to import" .error]
  else
    [.importRequest content category addedBy]

/-- handleImport (script.js), response stage: on success a notification
naming the imported count, modal close and reload; on failure only an
error notification; on a network error a console log and an error
notification. -/
def handleImportResp : FetchOutcome ImportResult → List Effect
  | .ok r =>
      if r.success then
        [.notification
           ("Successfully imported " ++ toString r.importedCount ++ " links!")
           .success,
         .closeImportModal, .reload]
      else
        [.notification (r.error.getD "Import failed") .error]
  | .networkError =>
      [.consoleError "Import error:",
       .notification "Import failed. Please try again." .error]

/-- deleteLink (script.js): on a response with `response.ok` a success
notification and reload; a resolved response that is not ok takes no
branch at all; a network error logs to the console and shows an error
notification.  The Bool carried by the outcome is `response.ok`. -/
def deleteLink : FetchOutcome Bool → List Effect
  | .ok true => [.notification "Link deleted successfully" .success, .reload]
  | .ok false => []
  | .networkError =>
      [.consoleError "Delete error:",
       .notification "Failed to delete link" .error]

/-- trackLinkClick (script.js): fires GET /click_link/<id> and ignores
the response entirely; a network error is only logged to the console. -/
def trackLinkClick : FetchOutcome Unit → List Effect
  | .ok _ => []
  | .networkError => [.consoleError "Click tracking error:"]

/-- openLink (script.js): always opens the url in a new tab; a click
request is issued only when the provided id is truthy. -/
def openLink (url : String) (linkId : JSVal) : List Effect :=
  [.openTab url] ++ (if linkId.truthy then [.clickRequest linkId] else [])

/-- performQuickSearch (script.js): an empty endpoint result renders the
"No links found" placeholder; otherwise `links.slice(0, 5)` is rendered
in the command-palette results, in the endpoint's order. -/
def performQuickSearch (links : List Link) : Rendered :=
  if links.isEmpty then .noLinksFound
  else .entries (links.take 5)

/-- The links a rendered pane displays, in display order. -/
def Rendered.displayed : Rendered → List Link
  | .noLinksFound => []
  | .entries ls => ls

/-- Visibility value assigned to a link card by the category filter. -/
inductive Display where
  | block
  | none
deriving DecidableEq, Repr

/-- A link card in the grid, carrying its data-category attribute. -/
structure Card where
  category : String
deriving DecidableEq, Repr

/-- handleCategoryFilter (script.js): each card's display style becomes
block when the selected category is "all" or equals the card's
data-category, and none otherwise. -/
def handleCategoryFilter (selected : String) (cards : List Card) :
    List (Card × Display) :=
  cards.map (fun c =>
    (c, if selected = "all" ∨ c.category = selected then Display.block
        else Display.none))

/-- Bool-level substring test on character lists: does the needle occur
contiguously in the haystack? -/
def occursIn (needle : List Char) : List Char → Bool
  | [] => needle.isEmpty
  | c :: t => needle.isPrefixOf (c :: t) || occursIn needle t

/-- Whether a token occurs as a substring of a string. -/
def strContains (hay tok : String) : Bool :=
  occursIn tok.toList hay.toList

/-- Modelled from the spec: the Search/Match Engine's tokenization
(server code app.py absent from the sources).  The query is lowercased
and split into whitespace-separated words. -/
def tokenize (q : String) : List String :=
  (q.toLower.split Char.isWhitespace).filter (fun w => w ≠ "")

/-- Modelled from the spec: one token's contribution to a link's
relevance — title match highest weight, description medium, category
lower. -/
def tokenScore (l : Link) (t : String) : Nat :=
  (if strContains l.title.toLower t then 3 else 0) +
  (if strContains l.description.toLower t then 2 else 0) +
  (if strContains l.category.toLower t then 1 else 0)

/-- Modelled from the spec: a link's relevance score for a token list. -/
def score (l : Link) (tokens : List String) : Nat :=
  (tokens.map (tokenScore l)).sum

/-- Modelled from the spec: the ranking order — descending relevance,
ties broken by descending clicks then descending created_at. -/
def rankLe (tokens : List String) (a b : Link) : Bool :=
  let sa := score a tokens
  let sb := score b tokens
  if sa = sb then
    if a.clicks = b.clicks then decide (b.created_at ≤ a.created_at)
    else decide (b.clicks ≤ a.clicks)
  else decide (sb ≤ sa)

/-- Modelled from the spec: `search(query)` over the store — empty token
list yields the empty sequence; otherwise links with a positive score,
sorted by the ranking order. -/
def searchEngine (q : String) (store : List Link) : List Link :=
  let tokens := tokenize q
  if tokens.isEmpty then []
  else ((store.filter (fun l => 0 < score l tokens)).mergeSort (rankLe tokens))

/-- Result of the conversational variant: a reply string and the ranked
relevant links. -/
structure ChatResult where
  reply : String
  relevantLinks : List Link
deriving DecidableEq, Repr

/-- Modelled from the spec: `chat(message)` — run the match engine on the
message's tokens; zero results give an apologetic reply, otherwise a
template reply naming the count and the category spread. -/
def chat (message : String) (store : List Link) : ChatResult :=
  let links := searchEngine message store
  if links.isEmpty then
    { reply := "Sorry, I could not find any links matching that. Could you rephrase your question?"
      relevantLinks := [] }
  else
    { reply := "I found " ++ toString links.length ++
        " relevant links in these categories: " ++
        String.intercalate ", " (links.map Link.category).eraseDups
      relevantLinks := links }

/-- Increment the clicks counter of every link bearing the given id. -/
def bump (id : Int) (store : List Link) : List Link :=
  store.map (fun l =>
    if l.id = id then { l with clicks := l.clicks + 1 } else l)

/-- Modelled from the spec: the Link Store's
`incrementClicks(id) -> Link | fails(NotFound)` (server code app.py
absent from the sources), on the store state: fails when no link has the
id, otherwise atomically adds 1 to that link's clicks. -/
def incrementClicks (store : List Link) (id : Int) : Option (List Link) :=
  if store.any (fun l => decide (l.id = id)) then some (bump id store)
  else none

/-- N concurrent `incrementClicks` calls on one id: the spec requires the
read-modify-write to be serialized per id, so every schedule of the N
atomic calls is observationally the N-fold sequential composition,
which this computes. -/
def incrementN (store : List Link) (id : Int) : Nat → Option (List Link)
  | 0 => some store
  | n + 1 => (incrementN store id n).bind (fun s => incrementClicks s id)

/-- The first link in the store bearing the given id, if any. -/
def findLink (store : List Link) (id : Int) : Option Link :=
  store.find? (fun l => decide (l.id = id))

/-- C2: a search input consisting only of whitespace issues no search
request and hides the results pane (its whole effect is the hide), and a
non-empty query whose result set is empty renders the "No links found"
state — "no query" and "no matches" both render as empty at the UI
boundary. -/
theorem search_blank_and_no_matches :
    (∀ (mode : Bool) (raw : String), jsTrim raw = "" →
      handleSearch mode raw = [Effect.hideSearchResults]) ∧
    displaySearchResults [] =
      [Effect.showSearchResults Rendered.noLinksFound] := by
  refine ⟨fun mode raw h => ?_, rfl⟩
  simp [handleSearch, h]

theorem search_blank_and_no_matches_witness :
    handleSearch true "  \t " = [Effect.hideSearchResults] :=
  search_blank_and_no_matches.1 true "  \t " (by decide)

/-- C3: a bulk-import submission whose content is empty or
whitespace-only sends no request to the server and reports an error
notification; a submission with non-blank content sends exactly one
request to the server. -/
theorem bulkImport_empty_input (contentRaw category addedByField : String) :
    (jsTrim contentRaw = "" →
      handleImportSubmit contentRaw category addedByField =
        [Effect.notification "Please paste some content to import"
          NotifKind.error]) ∧
    (jsTrim contentRaw ≠ "" →
      (handleImportSubmit contentRaw category addedByField).countP
        Effect.isImportRequest = 1) := by
  constructor
  · intro h
    simp [handleImportSubmit, h]
  · intro h
    simp [handleImportSubmit, h, List.countP_cons, Effect.isImportRequest]

theorem bulkImport_empty_input_witness :
    handleImportSubmit " \n " "ai" "me" =
      [Effect.notification "Please paste some content to import"
        NotifKind.error] ∧
    (handleImportSubmit "some text" "ai" "me").countP
      Effect.isImportRequest = 1 :=
  ⟨(bulkImport_empty_input " \n " "ai" "me").1 (by decide),
   (bulkImport_empty_input "some text" "ai" "me").2 (by decide)⟩

/-- C7: when the importer name field is left empty, the non-blank
submission's import request carries added_by = "Anonymous". -/
theorem bulkImport_added_by_defaults (contentRaw category : String)
    (h : jsTrim contentRaw ≠ "") :
    handleImportSubmit contentRaw category "" =
      [Effect.importRequest (jsTrim contentRaw) category "Anonymous"] := by
  simp [handleImportSubmit, h]

theorem bulkImport_added_by_defaults_witness :
    handleImportSubmit "some text" "ai" "" =
      [Effect.importRequest (jsTrim "some text") "ai" "Anonymous"] :=
  bulkImport_added_by_defaults "some text" "ai" (by decide)

/-- C9: openLink always opens the url in a new tab, and issues a
click-tracking request for the id if and only if the id is truthy — an
id of 0, null or undefined opens without counting the click. -/
theorem openLink_click_iff_truthy (url : String) (id : JSVal) :
    Effect.openTab url ∈ openLink url id ∧
    (Effect.clickRequest id ∈ openLink url id ↔ id.truthy = true) := by
  by_cases h : id.truthy <;> simp [openLink, h]

/-- C10: a chat input consisting only of whitespace is a no-op — no chat
request is issued and no message is appended to the conversation. -/
theorem chat_blank_message_noop (raw : String) (h : jsTrim raw = "") :
    sendChatMessage raw = [] := by
  simp [sendChatMessage, h]

theorem chat_blank_message_noop_witness :
    sendChatMessage "  \t" = [] :=
  chat_blank_message_noop "  \t" (by decide)

/-- C8: the quick-search view displays exactly the first five links of
the endpoint's sequence — at most five entries, a prefix of the
endpoint's order, so results beyond the fifth are never shown. -/
theorem quickSearch_top_five (links : List Link) :
    (performQuickSearch links).displayed = links.take 5 ∧
    ((performQuickSearch links).displayed).length ≤ 5 ∧
    (performQuickSearch links).displayed <+: links := by
  have hd : (performQuickSearch links).displayed = links.take 5 := by
    by_cases h : links.isEmpty
    · rw [List.isEmpty_iff] at h
      subst h
      rfl
    · simp [performQuickSearch, h, Rendered.displayed]
  refine ⟨hd, ?_, ?_⟩
  · rw [hd]
    exact List.length_take_le 5 links
  · rw [hd]
    exact ⟨links.drop 5, List.take_append_drop 5 links⟩

/-- C6: the category filter leaves the card list itself unchanged and
sets each card's display to block exactly when "all" is selected or the
card's category equals the selection, and to none otherwise. -/
theorem categoryFilter_visibility (selected : String) (cards : List Card) :
    (handleCategoryFilter selected cards).map Prod.fst = cards ∧
    ∀ p ∈ handleCategoryFilter selected cards,
      (p.2 = Display.block ↔ (selected = "all" ∨ p.1.category = selected)) ∧
      (p.2 = Display.none ↔ ¬(selected = "all" ∨ p.1.category = selected)) := by
  constructor
  · induction cards with
    | nil => rfl
    | cons c t ih =>
      simp only [handleCategoryFilter, List.map_cons] at ih ⊢
      exact congrArg (List.cons c) ih
  · intro p hp
    simp only [handleCategoryFilter, List.mem_map] at hp
    obtain ⟨c, hc, rfl⟩ := hp
    by_cases h : selected = "all" ∨ c.category = selected
    · simp [h]
    · simp [h]

theorem categoryFilter_visibility_witness :
    ((Card.mk "ai", Display.block) : Card × Display).2 = Display.block ↔
      ("ai" = "all" ∨ (Card.mk "ai").category = "ai") :=
  ((categoryFilter_visibility "ai" [Card.mk "ai"]).2
    (Card.mk "ai", Display.block) (by decide)).1

/-- C4: the chat operation is deterministic — two runs of chat with the
same message against the same store state produce the same reply text
and the same ordered sequence of relevant links. -/
theorem chat_deterministic (m : String) (s : List Link)
    (r₁ r₂ : ChatResult) (h₁ : r₁ = chat m s) (h₂ : r₂ = chat m s) :
    r₁.reply = r₂.reply ∧ r₁.relevantLinks = r₂.relevantLinks := by
  subst h₁
  subst h₂
  exact ⟨rfl, rfl⟩

theorem chat_deterministic_witness :
    (chat "machine learning" []).reply = (chat "machine learning" []).reply ∧
    (chat "machine learning" []).relevantLinks =
      (chat "machine learning" []).relevantLinks :=
  chat_deterministic "machine learning" []
    (chat "machine learning" []) (chat "machine learning" []) rfl rfl

theorem findLink_bump (store : List Link) (id : Int) :
    findLink (bump id store) id =
      (findLink store id).map (fun l => { l with clicks := l.clicks + 1 }) := by
  induction store with
  | nil => rfl
  | cons h t ih =>
    by_cases hid : h.id = id
    · simp [bump, findLink, hid]
    · simp only [bump, List.map_cons, findLink] at ih ⊢
      rw [List.find?_cons_of_neg, List.find?_cons_of_neg]
      · exact ih
      · simp [hid]
      · simp [hid]

theorem findLink_exists (store : List Link) (id : Int) (l : Link)
    (h : findLink store id = some l) :
    ∃ x ∈ store, x.id = id := by
  rw [findLink] at h
  have hm := List.mem_of_find?_eq_some h
  have hp := List.find?_some h
  exact ⟨l, hm, of_decide_eq_true hp⟩

/-- C5: with incrementClicks serialized per id as the design requires,
N concurrent calls on an id present in the store all succeed and leave
that link's clicks counter exactly N higher than before. -/
theorem incrementN_no_lost_updates (store : List Link) (id : Int) (n : Nat)
    (l : Link) (hl : findLink store id = some l) :
    ∃ store' l', incrementN store id n = some store' ∧
      findLink store' id = some l' ∧ l'.clicks = l.clicks + n := by
  induction n with
  | zero => exact ⟨store, l, rfl, hl, rfl⟩
  | succ n ih =>
    obtain ⟨s', l', hrun, hfind, hclicks⟩ := ih
    refine ⟨bump id s', { l' with clicks := l'.clicks + 1 }, ?_, ?_, ?_⟩
    · simp [incrementN, hrun, incrementClicks, findLink_exists s' id l' hfind]
    · rw [findLink_bump, hfind]
      rfl
    · show l'.clicks + 1 = l.clicks + (n + 1)
      omega

theorem incrementN_no_lost_updates_witness :
    ∃ store' l',
      incrementN [Link.mk 1 "t" "u" "d" "general" "Anonymous" 0 0] 1 3 =
        some store' ∧
      findLink store' 1 = some l' ∧
      l'.clicks = (Link.mk 1 "t" "u" "d" "general" "Anonymous" 0 0).clicks + 3 :=
  incrementN_no_lost_updates [Link.mk 1 "t" "u" "d" "general" "Anonymous" 0 0]
    1 3 (Link.mk 1 "t" "u" "d" "general" "Anonymous" 0 0) (by decide)

/-- C1 counterexample: deleting a nonexistent id makes the server answer
with a non-ok response; deleteLink then performs no effect at all — in
particular no user-visible notification — so this failure is silently
swallowed, contrary to the claim. -/
theorem delete_notOk_silently_swallowed :
    notifiesUser (deleteLink (FetchOutcome.ok false)) = false := rfl

/-- C1 (amended): add-link and bulk-import failures — an unsuccessful
response or a network error — and delete network errors each surface a
user-visible notification and mutate no application state (no modal
close, no reload); but a delete whose response is not ok produces no
effect at all, and a click-increment failure is only logged to the
console — those two failures reach no user-visible notification. -/
theorem failure_surfacing_amended :
    (∀ r : AddLinkResult, r.success = false →
      notifiesUser (handleAddLinkResp (FetchOutcome.ok r)) = true ∧
      (handleAddLinkResp (FetchOutcome.ok r)).all
        (fun e => !e.isStateMutation) = true) ∧
    (notifiesUser (handleAddLinkResp FetchOutcome.networkError) = true ∧
      (handleAddLinkResp FetchOutcome.networkError).all
        (fun e => !e.isStateMutation) = true) ∧
    (∀ r : ImportResult, r.success = false →
      notifiesUser (handleImportResp (FetchOutcome.ok r)) = true ∧
      (handleImportResp (FetchOutcome.ok r)).all
        (fun e => !e.isStateMutation) = true) ∧
    (notifiesUser (handleImportResp FetchOutcome.networkError) = true ∧
      (handleImportResp FetchOutcome.networkError).all
        (fun e => !e.isStateMutation) = true) ∧
    (notifiesUser (deleteLink FetchOutcome.networkError) = true ∧
      (deleteLink FetchOutcome.networkError).all
        (fun e => !e.isStateMutation) = true) ∧
    deleteLink (FetchOutcome.ok false) = [] ∧
    trackLinkClick FetchOutcome.networkError =
      [Effect.consoleError "Click tracking error:"] := by
  refine ⟨?_, by decide, ?_, by decide, by decide, rfl, rfl⟩
  · intro r h
    constructor
    · simp [handleAddLinkResp, h, notifiesUser, Effect.isUserNotification]
    · simp [handleAddLinkResp, h, Effect.isStateMutation]
  · intro r h
    constructor
    · simp [handleImportResp, h, notifiesUser, Effect.isUserNotification]
    · simp [handleImportResp, h, Effect.isStateMutation]

theorem failure_surfacing_amended_witness :
    notifiesUser (handleAddLinkResp (FetchOutcome.ok (AddLinkResult.mk false none))) = true ∧
    notifiesUser (handleImportResp (FetchOutcome.ok (ImportResult.mk false 0 none))) = true :=
  ⟨(failure_surfacing_amended.1 (AddLinkResult.mk false none) rfl).1,
   (failure_surfacing_amended.2.2.1 (ImportResult.mk false 0 none) rfl).1⟩
